import Mathlib

/-!
Shallow embedding of the AI decision core of the SkyNET-I2A2 repository
(Delivery/20250820/Libs): the memory system (ai_memory_system.py), the
adaptive-parameter controller (ai_adaptive_parameters.py), the reasoning
engine (ai_reasoning_engine.py) and the predictive engine
(ai_predictive_engine.py).

Python floats are modelled as rationals, machine-level float rounding is
not modelled.  Timestamps (ISO strings produced by datetime.now and
compared after parsing) are modelled as rationals measured in days, so
that timedelta(days=7) becomes the constant 7.  External library
computations that only feed opaque numeric inputs into the code under
analysis (the TF-IDF cosine similarities produced by sklearn inside
_calculate_similarities) are passed in as an explicit list of values, one
per stored experience, exactly as the code consumes them.
-/

/-- Clamp a rational into the interval from lo to hi,
as the Python pattern min(hi, max(lo, x)). -/
def clampQ (lo hi x : ℚ) : ℚ := min hi (max lo x)

/-- Mean of a list of rationals, np.mean.  (Never applied to an empty
list by the code paths modelled here; division by zero yields 0 in ℚ.) -/
def listMean (l : List ℚ) : ℚ := l.sum / l.length

/-- Population variance of a list of rationals, np.var. -/
def listVar (l : List ℚ) : ℚ :=
  (l.map (fun v => (v - listMean l) ^ 2)).sum / l.length

/-- Sample variance (denominator n - 1), as used by pandas Series.std
(ddof = 1); the code only compares std against thresholds, and we compare
the squares, which is equivalent since both sides are nonnegative. -/
def sampleVar (l : List ℚ) : ℚ :=
  (l.map (fun v => (v - listMean l) ^ 2)).sum / (l.length - 1 : ℚ)

/-- Python list slice l[-n:]. -/
def takeLast {α : Type} (n : ℕ) (l : List α) : List α := l.drop (l.length - n)

/-- Whether pat occurs as a substring of s (Python: pat in s); splitOn
returns one more piece than there are occurrences. -/
def strContains (s pat : String) : Bool := (s.splitOn pat).length != 1

namespace Mem

/-- A primitive JSON value stored in a context mapping.  The repository
feeds string-keyed dicts with primitive values to json.dumps. -/
inductive JVal : Type
  | jstr (s : String)
  | jnum (q : ℚ)
  | jbool (b : Bool)
  deriving Repr, DecidableEq

/-- A context: a Python dict in insertion order, i.e. an association list
with (in any actual dict) no duplicate keys. -/
abbrev Ctx : Type := List (String × JVal)

/-- Deterministic rendering of a primitive value inside the canonical
serialization. -/
def serializeVal : JVal → String
  | .jstr s => "s" ++ s
  | .jnum q => "n" ++ toString q
  | .jbool b => "b" ++ toString b

/-- json.dumps(context, sort_keys=True): entries sorted by key (Python
sorts dict items by key before serializing).  The exact JSON punctuation
is irrelevant to every claim; what matters is that the rendering is a
function of the key-sorted entry list. -/
def dumpsSorted (ctx : Ctx) : String :=
  let sorted := ctx.mergeSort (fun a b => a.1 ≤ b.1)
  String.intercalate "," (sorted.map (fun kv => kv.1 ++ ":" ++ serializeVal kv.2))

/-- AIMemorySystem._generate_context_hash: md5 of the canonical
serialization.  md5 is a fixed deterministic function of its input
string, so fingerprint equality is exactly determined by equality of the
canonical serialization, which we therefore use as the fingerprint. -/
def generate_context_hash (ctx : Ctx) : String := dumpsSorted ctx

/-- The decision mapping of an experience, restricted to the fields the
code reads: decision.get("strategy") and decision.get("parameters"). -/
structure Decision : Type where
  strategy : Option String
  params : List (String × ℚ)
  deriving Repr, DecidableEq

/-- The outcome mapping fields read by _calculate_performance_score and
_generate_tags. -/
structure Outcome : Type where
  accuracy : Option ℚ
  total_value : Option ℚ
  target_value : Option ℚ
  employee_count : Option ℚ
  deriving Repr, DecidableEq

/-- The feedback fields read by _calculate_performance_score. -/
structure StoreFeedback : Type where
  satisfaction : Option ℚ
  quality_rating : Option ℚ
  deriving Repr, DecidableEq

/-- An Experience record (dataclass Experience).  The free-text and
never-read fields are carried exactly as far as the claims need them. -/
structure Experience : Type where
  timestamp : ℚ
  context_hash : String
  context : Ctx
  decision : Decision
  outcome : Outcome
  performance_score : ℚ
  feedback : Option StoreFeedback
  tags : List String
  deriving Repr, DecidableEq

/-- A LearningInsight record. -/
structure LearningInsight : Type where
  insight_type : String
  description : String
  confidence : ℚ
  evidence_count : ℕ
  last_updated : ℚ
  parameters_affected : List String
  deriving Repr, DecidableEq

/-- AIMemorySystem._calculate_performance_score.  (In the source a zero
target_value would raise ZeroDivisionError; in ℚ the quotient is 0.) -/
def calculate_performance_score (outcome : Outcome) (feedback : Option StoreFeedback) : ℚ :=
  let s0 : ℚ := 0
  let s1 := match outcome.accuracy with
    | some a => s0 + a * (4/10)
    | none => s0
  let s2 := match outcome.total_value, outcome.target_value with
    | some tv, some tg => s1 + min 1 (tv / tg) * (3/10)
    | _, _ => s1
  let s3 := match outcome.employee_count with
    | some ec => s2 + min (1/10) (ec / 10000)
    | none => s2
  let s4 := match feedback with
    | some fb =>
      let a := match fb.satisfaction with
        | some sat => s3 + sat * (2/10)
        | none => s3
      match fb.quality_rating with
        | some q => a + q * (1/10)
        | none => a
    | none => s3
  min 1 (max 0 s4)

/-- AIMemorySystem._generate_tags.  The employee_count and accuracy
branches compare numbers; a non-numeric value there would raise in the
source and is not produced by any caller. -/
def generate_tags (ctx : Ctx) (decision : Decision) (outcome : Outcome) : List String :=
  let t1 : List String := match ctx.lookup "employee_count" with
    | some (.jnum c) =>
      if c > 1000 then ["large_scale"]
      else if c > 500 then ["medium_scale"]
      else ["small_scale"]
    | _ => []
  let t2 := match decision.strategy with
    | some s => t1 ++ ["strategy_" ++ s]
    | none => t1
  match outcome.accuracy with
    | some a =>
      if a > 95/100 then t2 ++ ["high_accuracy"]
      else if a > 90/100 then t2 ++ ["medium_accuracy"]
      else t2 ++ ["low_accuracy"]
    | none => t2

/-- The in-memory state of AIMemorySystem (persistence writes the same
data back to disk and is not modelled). -/
structure MemState : Type where
  experiences : List Experience
  insights : List LearningInsight
  deriving Repr, DecidableEq

/-- AIMemorySystem._generate_insights_from_experience: appends a
high_performance insight when the score exceeds 0.9 (the pattern
analysis helper _analyze_patterns is pass in the source). -/
def generate_insights_from_experience (st : MemState) (exp : Experience) : MemState :=
  if exp.performance_score > 9/10 then
    { st with insights := st.insights ++
      [{ insight_type := "high_performance"
         description := "High performance achieved with " ++
           (exp.decision.strategy.getD "unknown") ++ " strategy"
         confidence := 8/10
         evidence_count := 1
         last_updated := exp.timestamp
         parameters_affected := exp.decision.params.map Prod.fst }] }
  else st

/-- AIMemorySystem.store_experience: fingerprint, score, append, insight
generation.  Returns the experience id (the fingerprint) and the new
state.  now is the datetime.now() of the call. -/
def store_experience (st : MemState) (now : ℚ) (ctx : Ctx) (decision : Decision)
    (outcome : Outcome) (feedback : Option StoreFeedback) : String × MemState :=
  let h := generate_context_hash ctx
  let score := calculate_performance_score outcome feedback
  let exp : Experience :=
    { timestamp := now
      context_hash := h
      context := ctx
      decision := decision
      outcome := outcome
      performance_score := score
      feedback := feedback
      tags := generate_tags ctx decision outcome }
  let st1 : MemState := { st with experiences := st.experiences ++ [exp] }
  (h, generate_insights_from_experience st1 exp)

/-- An experience paired with the similarity_score attribute that
retrieve_similar_experiences writes onto it before sorting. -/
structure ScoredExperience : Type where
  similarity_score : ℚ
  exp : Experience
  deriving Repr, DecidableEq

/-- Python tuple comparison (a, b) <= (c, d): lexicographic. -/
def pairLexLe (a b : ℚ × ℚ) : Bool := a.1 < b.1 || (a.1 = b.1 && a.2 ≤ b.2)

/-- AIMemorySystem.retrieve_similar_experiences.  sims lists the cosine
similarity of the query against each stored experience, in store order,
as produced by _calculate_similarities (an sklearn computation treated
as an opaque input).  Filtering keeps similarities at or above the
threshold; list.sort(key=(similarity, performance), reverse=True) is a
stable descending sort on the lexicographic pair. -/
def retrieve_similar_experiences (sims : List ℚ) (exps : List Experience)
    (similarity_threshold : ℚ) (max_results : ℕ) : List ScoredExperience :=
  if exps.isEmpty then []
  else
    let paired := sims.zip exps
    let filtered := paired.filter (fun p => similarity_threshold ≤ p.1)
    let scored := filtered.map (fun p => ScoredExperience.mk p.1 p.2)
    let sorted := scored.mergeSort (fun a b =>
      pairLexLe (b.similarity_score, b.exp.performance_score)
                (a.similarity_score, a.exp.performance_score))
    sorted.take max_results

end Mem

namespace Params

open Mem

/-- ParameterConfig dataclass (the free-text description field is never
read by any operation and is omitted). -/
structure ParameterConfig : Type where
  name : String
  current_value : ℚ
  min_value : ℚ
  max_value : ℚ
  learning_rate : ℚ
  adaptation_speed : ℚ
  stability_threshold : ℚ
  impact_factors : List String
  deriving Repr, DecidableEq

/-- ParameterHistory dataclass.  The context snapshot and the free-text
adjustment_reason are write-only in the source (never read back by any
modelled operation) and are omitted. -/
structure ParameterHistory : Type where
  timestamp : ℚ
  value : ℚ
  performance_score : ℚ
  deriving Repr, DecidableEq

/-- AdaptationResult dataclass.  The free-text reasoning is omitted; the
expected_impact mapping of _predict_adaptation_impact is kept. -/
structure AdaptationResult : Type where
  parameter_name : String
  old_value : ℚ
  new_value : ℚ
  adjustment_amount : ℚ
  confidence : ℚ
  expected_impact : List (String × ℚ)
  deriving Repr, DecidableEq

/-- The feedback mapping consumed by update_parameters_from_feedback:
the recognized numeric entries plus the remaining top-level keys (used
only for impact-factor membership tests). -/
structure Feedback : Type where
  perfAccuracy : Option (Option ℚ)
  cost_optimization : Option ℚ
  employee_satisfaction : Option ℚ
  extraKeys : List String
  deriving Repr, DecidableEq

/-- The top-level keys present in a feedback mapping. -/
def Feedback.keys (fb : Feedback) : List String :=
  (if fb.perfAccuracy.isSome then ["performance"] else []) ++
  (if fb.cost_optimization.isSome then ["cost_optimization"] else []) ++
  (if fb.employee_satisfaction.isSome then ["employee_satisfaction"] else []) ++
  fb.extraKeys

/-- One parameter together with its slice of adaptation_history (the
Python dicts self.parameters and self.adaptation_history are keyed by
the same names; each name is processed independently). -/
structure ParamEntry : Type where
  cfg : ParameterConfig
  hist : List ParameterHistory
  deriving Repr, DecidableEq

/-- AIAdaptiveParameters._count_recent_adaptations with days = 7:
entries whose timestamp is at or after now minus 7 days. -/
def count_recent_adaptations (hist : List ParameterHistory) (now : ℚ) : ℕ :=
  (hist.filter (fun a => now - 7 ≤ a.timestamp)).length

/-- AIAdaptiveParameters._has_relevant_feedback. -/
def has_relevant_feedback (cfg : ParameterConfig) (fb : Feedback) : Bool :=
  cfg.impact_factors.any (fun f => f ∈ fb.keys) || fb.perfAccuracy.isSome

/-- AIAdaptiveParameters._is_parameter_stable. -/
def is_parameter_stable (cfg : ParameterConfig) (hist : List ParameterHistory) : Bool :=
  if hist.isEmpty then true
  else
    let recent := takeLast 10 hist
    if recent.length < 3 then true
    else listVar (recent.map (·.value)) < (1 - cfg.stability_threshold) * (1/10)

/-- AIAdaptiveParameters._should_adapt_parameter. -/
def should_adapt_parameter (cfg : ParameterConfig) (hist : List ParameterHistory)
    (now : ℚ) (fb : Feedback) : Bool :=
  if count_recent_adaptations hist now ≥ 3 then false
  else if ¬has_relevant_feedback cfg fb then false
  else if is_parameter_stable cfg hist then false
  else true

/-- AIAdaptiveParameters._calculate_parameter_adjustment: the fixed rule
table, in source order (a performance-accuracy rule that fires returns
immediately, before the cost and satisfaction rules are examined). -/
def calculate_parameter_adjustment (cfg : ParameterConfig) (fb : Feedback) : ℚ :=
  let perfAdj : Option ℚ :=
    match fb.perfAccuracy with
    | some (some a) =>
      if a < 9/10 then
        if cfg.name = "vacation_benefit_factor" then some (cfg.learning_rate * (1/10))
        else if cfg.name = "safety_margin" then some (cfg.learning_rate * (5/100))
        else none
      else if a > 98/100 then
        if cfg.name = "safety_margin" then some (-cfg.learning_rate * (2/100))
        else none
      else none
    | _ => none
  match perfAdj with
  | some adj => adj
  | none =>
    let costAdj : Option ℚ :=
      match fb.cost_optimization with
      | some c =>
        if c > 1/2 then
          if cfg.name = "company_cost_percentage" then some (-cfg.learning_rate * (5/100))
          else if cfg.name = "optimization_factor" then some (cfg.learning_rate * (1/10))
          else none
        else none
      | none => none
    match costAdj with
    | some adj => adj
    | none =>
      let satAdj : Option ℚ :=
        match fb.employee_satisfaction with
        | some s =>
          if s < 7/10 then
            if cfg.name = "employee_cost_percentage" then some (-cfg.learning_rate * (5/100))
            else if cfg.name = "vacation_benefit_factor" then some (cfg.learning_rate * (1/10))
            else none
          else none
        | none => none
      satAdj.getD 0

/-- AIAdaptiveParameters._get_recent_experiences: among the last 50
experiences, those whose decision parameters contain a truthy value for
this parameter name, up to 10 of them. -/
def get_recent_experiences (mem : List Experience) (name : String) : List Experience :=
  ((takeLast 50 mem).filter (fun e =>
    match e.decision.params.lookup name with
    | some v => v ≠ 0
    | none => false)).take 10

/-- AIAdaptiveParameters._calculate_adaptation_confidence. -/
def calculate_adaptation_confidence (mem : List Experience) (name : String)
    (fb : Feedback) : ℚ :=
  let c0 : ℚ := 1/2
  let c1 := match fb.perfAccuracy with
    | some (some a) => c0 + (a - 1/2) * (3/10)
    | _ => c0
  let recent := get_recent_experiences mem name
  let c2 :=
    if recent.isEmpty then c1
    else c1 + (listMean (recent.map (·.performance_score)) - 1/2) * (2/10)
  min 1 (max 0 c2)

/-- AIAdaptiveParameters._predict_adaptation_impact. -/
def predict_adaptation_impact (name : String) (new_value : ℚ) : List (String × ℚ) :=
  if name = "company_cost_percentage" then
    [("cost_optimization", -new_value * (5/10)), ("employee_satisfaction", new_value * (3/10))]
  else if name = "employee_cost_percentage" then
    [("cost_optimization", new_value * (4/10)), ("employee_satisfaction", -new_value * (5/10))]
  else if name = "vacation_benefit_factor" then
    [("employee_satisfaction", new_value * (2/10)), ("cost_optimization", -new_value * (1/10))]
  else if name = "safety_margin" then
    [("risk_mitigation", new_value * (8/10)), ("efficiency", -new_value * (3/10))]
  else []

/-- AIAdaptiveParameters._record_adaptation: append the new history
entry (performance_score defaults to 0.5 when the feedback has no
performance accuracy) and trim the history to the most recent 100. -/
def record_adaptation (hist : List ParameterHistory) (now new_value : ℚ)
    (fb : Feedback) : List ParameterHistory :=
  let entry : ParameterHistory :=
    { timestamp := now
      value := new_value
      performance_score := (fb.perfAccuracy.getD none).getD (1/2) }
  let h := hist ++ [entry]
  if h.length > 100 then takeLast 100 h else h

/-- AIAdaptiveParameters._adapt_parameter: compute the adjustment, drop
it as a no-op when below 0.001 in absolute value, clamp the new value
into the declared bounds, update the parameter and record the history
entry. -/
def adapt_parameter (mem : List Experience) (now : ℚ) (fb : Feedback)
    (e : ParamEntry) : Option AdaptationResult × ParamEntry :=
  let adjustment := calculate_parameter_adjustment e.cfg fb
  if |adjustment| < 1/1000 then (none, e)
  else
    let old_value := e.cfg.current_value
    let new_value := max e.cfg.min_value (min e.cfg.max_value (old_value + adjustment))
    let result : AdaptationResult :=
      { parameter_name := e.cfg.name
        old_value := old_value
        new_value := new_value
        adjustment_amount := adjustment
        confidence := calculate_adaptation_confidence mem e.cfg.name fb
        expected_impact := predict_adaptation_impact e.cfg.name new_value }
    (some result,
     { cfg := { e.cfg with current_value := new_value }
       hist := record_adaptation e.hist now new_value fb })

/-- The per-parameter body of the loop in update_parameters_from_feedback. -/
def update_one (mem : List Experience) (now : ℚ) (fb : Feedback)
    (e : ParamEntry) : Option AdaptationResult × ParamEntry :=
  if should_adapt_parameter e.cfg e.hist now fb then adapt_parameter mem now fb e
  else (none, e)

/-- AIAdaptiveParameters.update_parameters_from_feedback: below 5 stored
experiences nothing happens; otherwise every tracked parameter is
examined independently, in order, and the successful adaptations are
collected.  (The persistence calls write the same state to disk.) -/
def update_parameters_from_feedback (mem : List Experience) (now : ℚ) (fb : Feedback)
    (ps : List ParamEntry) : List AdaptationResult × List ParamEntry :=
  if mem.length < 5 then ([], ps)
  else
    let stepped := ps.map (update_one mem now fb)
    (stepped.filterMap Prod.fst, stepped.map Prod.snd)

/-- One call to update_parameters_from_feedback: the ambient memory
contents, the wall-clock time of the call, and the feedback argument. -/
structure Call : Type where
  mem : List Experience
  now : ℚ
  fb : Feedback

/-- The parameter state after a sequence of
update_parameters_from_feedback calls. -/
def runCalls (calls : List Call) (ps : List ParamEntry) : List ParamEntry :=
  calls.foldl (fun st c => (update_parameters_from_feedback c.mem c.now c.fb st).2) ps

/-- Call times are nondecreasing, starting at or after t0 (datetime.now
is monotone across successive calls). -/
def TimesMono : ℚ → List Call → Prop
  | _, [] => True
  | t, c :: cs => t ≤ c.now ∧ TimesMono c.now cs

/-- Default config of company_cost_percentage
(_create_default_parameters). -/
def companyCostCfg : ParameterConfig :=
  { name := "company_cost_percentage", current_value := 80/100, min_value := 70/100,
    max_value := 90/100, learning_rate := 1/100, adaptation_speed := 1/10,
    stability_threshold := 95/100,
    impact_factors := ["cost_optimization", "employee_satisfaction"] }

/-- Default config of employee_cost_percentage. -/
def employeeCostCfg : ParameterConfig :=
  { name := "employee_cost_percentage", current_value := 20/100, min_value := 10/100,
    max_value := 30/100, learning_rate := 1/100, adaptation_speed := 1/10,
    stability_threshold := 95/100,
    impact_factors := ["employee_satisfaction", "cost_optimization"] }

/-- Default config of vacation_benefit_factor. -/
def vacationCfg : ParameterConfig :=
  { name := "vacation_benefit_factor", current_value := 35/10, min_value := 2,
    max_value := 5, learning_rate := 5/100, adaptation_speed := 2/10,
    stability_threshold := 90/100,
    impact_factors := ["employee_satisfaction", "compliance"] }

/-- Default config of termination_cutoff_day. -/
def terminationCfg : ParameterConfig :=
  { name := "termination_cutoff_day", current_value := 15, min_value := 10,
    max_value := 20, learning_rate := 1/10, adaptation_speed := 3/10,
    stability_threshold := 85/100,
    impact_factors := ["compliance", "business_rules"] }

/-- Default config of safety_margin. -/
def safetyMarginCfg : ParameterConfig :=
  { name := "safety_margin", current_value := 1/10, min_value := 5/100,
    max_value := 2/10, learning_rate := 2/100, adaptation_speed := 15/100,
    stability_threshold := 90/100,
    impact_factors := ["risk_mitigation", "compliance"] }

/-- Default config of optimization_factor. -/
def optimizationCfg : ParameterConfig :=
  { name := "optimization_factor", current_value := 8/10, min_value := 5/10,
    max_value := 1, learning_rate := 3/100, adaptation_speed := 2/10,
    stability_threshold := 85/100,
    impact_factors := ["efficiency", "cost_optimization"] }

/-- The six default parameters together with per-parameter adaptation
histories (self.parameters and self.adaptation_history, which the
update loop consumes name by name). -/
def defaultWithHists (h1 h2 h3 h4 h5 h6 : List ParameterHistory) : List ParamEntry :=
  [⟨companyCostCfg, h1⟩, ⟨employeeCostCfg, h2⟩, ⟨vacationCfg, h3⟩,
   ⟨terminationCfg, h4⟩, ⟨safetyMarginCfg, h5⟩, ⟨optimizationCfg, h6⟩]

/-- AIAdaptiveParameters._create_default_parameters, as fresh parameter
entries with the empty adaptation history of a fresh controller. -/
def defaultParameters : List ParamEntry := defaultWithHists [] [] [] [] [] []

end Params

namespace Reason

open Mem

/-- The reasoning-engine context fields read along the
evaluate_and_select_option path (each read with context.get, hence
optional). -/
structure RContext : Type where
  employee_count : Option ℚ
  budget_limit : Option ℚ
  time_constraint : Option String
  compliance_required : Option Bool
  deriving Repr, DecidableEq

/-- DecisionOption dataclass. -/
structure DecisionOption : Type where
  name : String
  description : String
  parameters : List (String × ℚ)
  expected_performance : ℚ
  confidence : ℚ
  reasoning : String
  risks : List String
  benefits : List String
  deriving Repr, DecidableEq

/-- AnalysisResult dataclass. -/
structure AnalysisResult : Type where
  situation_type : String
  complexity_score : ℚ
  risk_level : String
  key_factors : List (String × ℚ)
  constraints : List String
  opportunities : List String
  recommendations : List String
  deriving Repr, DecidableEq

/-- The expected_outcome mapping built by _predict_outcome. -/
structure PredictedOutcome : Type where
  expected_accuracy : ℚ
  confidence : ℚ
  estimated_processing_time : ℤ
  estimated_cost : ℚ
  risk_level : String
  deriving Repr, DecidableEq

/-- DecisionResult dataclass. -/
structure DecisionResult : Type where
  selected_option : DecisionOption
  confidence : ℚ
  expected_outcome : PredictedOutcome
  alternative_options : List DecisionOption
  risk_assessment : List (String × ℚ)
  deriving Repr, DecidableEq

/-- A placeholder option; never the value of any reachable head since
the selection list is nonempty wherever it is taken from. -/
def defaultOption : DecisionOption :=
  { name := "", description := "", parameters := [], expected_performance := 0,
    confidence := 0, reasoning := "", risks := [], benefits := [] }

/-- AIReasoningEngine._calculate_situation_fit. -/
def calculate_situation_fit (opt : DecisionOption) (analysis : AnalysisResult) : ℚ :=
  let fit : ℚ := 1/2
  let fit :=
    if analysis.risk_level = "high" ∧ "low_risk" ∈ opt.benefits then fit + 3/10
    else if analysis.risk_level = "low" ∧ "breakthrough_potential" ∈ opt.benefits then fit + 2/10
    else fit
  let fit :=
    if analysis.complexity_score > 7/10 ∧ strContains opt.description "sophisticated" then
      fit + 2/10
    else fit
  min 1 (max 0 fit)

/-- AIReasoningEngine._calculate_historical_score: mean performance of
the same-named-strategy experiences among the similar ones (threshold
0.7, at most 10), defaulting to 0.5 when there is no history. -/
def calculate_historical_score (sims : List ℚ) (exps : List Experience)
    (opt : DecisionOption) : ℚ :=
  let similar := retrieve_similar_experiences sims exps (7/10) 10
  if similar.isEmpty then 1/2
  else
    let strat := similar.filter (fun s => s.exp.decision.strategy = some opt.name)
    if strat.isEmpty then 1/2
    else listMean (strat.map (·.exp.performance_score))

/-- AIReasoningEngine._evaluate_option: the weighted per-option score,
clamped to the unit interval. -/
def evaluate_option (sims : List ℚ) (exps : List Experience)
    (opt : DecisionOption) (analysis : AnalysisResult) : ℚ :=
  let score := opt.expected_performance * (4/10) + opt.confidence * (3/10) +
    calculate_situation_fit opt analysis * (2/10) +
    calculate_historical_score sims exps opt * (1/10)
  min 1 (max 0 score)

/-- AIReasoningEngine._calculate_confidence: base 0.5 plus half the gap
to the runner-up when there are at least two options, otherwise the
selected option's own confidence; minus complexity times 0.2, minus 0.1
in a high-risk analysis; clamped to the unit interval. -/
def calculate_confidence (selected : DecisionOption)
    (all_options : List DecisionOption) (analysis : AnalysisResult) : ℚ :=
  let confidence :=
    if all_options.length > 1 then
      1/2 + (selected.expected_performance -
        (all_options.getD 1 defaultOption).expected_performance) * (1/2)
    else selected.confidence
  let confidence := confidence - analysis.complexity_score * (2/10)
  let confidence := if analysis.risk_level = "high" then confidence - 1/10 else confidence
  min 1 (max 0 confidence)

/-- AIReasoningEngine._estimate_processing_time: int() truncation of
60 times the employee-count and strategy factors. -/
def estimate_processing_time (opt : DecisionOption) (ctx : RContext) : ℤ :=
  let ec := ctx.employee_count.getD 0
  let time_factor : ℚ := 1 + (ec / 1000) * (1/2)
  let time_factor :=
    if opt.name = "conservative" then time_factor * (8/10)
    else if opt.name = "adaptive" then time_factor * (12/10)
    else if opt.name = "innovative" then time_factor * (15/10)
    else time_factor
  let q := 60 * time_factor
  q.num / (q.den : ℤ)

/-- AIReasoningEngine._estimate_cost.  The source assigns cost_factor in
an if/elif chain with no final else, so an option whose name is outside
the four-strategy catalog raises UnboundLocalError at the return. -/
def estimate_cost (opt : DecisionOption) : Except String ℚ :=
  if opt.name = "conservative" then .ok (1000 * 1)
  else if opt.name = "optimized" then .ok (1000 * (9/10))
  else if opt.name = "adaptive" then .ok (1000 * (11/10))
  else if opt.name = "innovative" then .ok (1000 * (13/10))
  else .error "UnboundLocalError: cost_factor referenced before assignment"

/-- AIReasoningEngine._assess_outcome_risk. -/
def assess_outcome_risk (opt : DecisionOption) : String :=
  let highCount := (opt.risks.filter (fun r => strContains r.toLower "high")).length
  let medCount := (opt.risks.filter (fun r =>
    ¬strContains r.toLower "high" ∧ strContains r.toLower "medium")).length
  if highCount > 0 then "high"
  else if medCount > 0 then "medium"
  else "low"

/-- AIReasoningEngine._predict_outcome; propagates the UnboundLocalError
of _estimate_cost. -/
def predict_outcome (opt : DecisionOption) (ctx : RContext) :
    Except String PredictedOutcome :=
  match estimate_cost opt with
  | .error e => .error e
  | .ok cost =>
    .ok { expected_accuracy := opt.expected_performance
          confidence := opt.confidence
          estimated_processing_time := estimate_processing_time opt ctx
          estimated_cost := cost
          risk_level := assess_outcome_risk opt }

/-- AIReasoningEngine._assess_risks. -/
def assess_risks (opt : DecisionOption) (ctx : RContext) : List (String × ℚ) :=
  [("performance_risk", 1 - opt.expected_performance),
   ("time_risk", if ctx.time_constraint = some "urgent" then 2/10 else 1/10),
   ("cost_risk", (1 - min 1 ((ctx.budget_limit.getD 0) / 2000000)) * (3/10)),
   ("compliance_risk", if ctx.compliance_required.getD false then 1/10 else 5/100)]

/-- The option list after scoring (each expected_performance overwritten
with its _evaluate_option score) and the stable descending sort of
evaluate_and_select_option. -/
def evaluatedSorted (sims : List ℚ) (exps : List Experience)
    (options : List DecisionOption) (analysis : AnalysisResult) : List DecisionOption :=
  let evaluated := options.map (fun o =>
    { o with expected_performance := evaluate_option sims exps o analysis })
  evaluated.mergeSort (fun a b => b.expected_performance ≤ a.expected_performance)

/-- AIReasoningEngine.evaluate_and_select_option.  Raises (ValueError)
on an empty option list; otherwise scores, sorts, selects the top
option, computes the decision confidence and the outcome prediction
(which can itself raise, see estimate_cost).  The free-text reasoning
string is not modelled. -/
def evaluate_and_select_option (sims : List ℚ) (exps : List Experience)
    (options : List DecisionOption) (analysis : AnalysisResult) (ctx : RContext) :
    Except String DecisionResult :=
  if options.isEmpty then .error "ValueError: No decision options provided"
  else
    let sorted := evaluatedSorted sims exps options analysis
    let selected := sorted.headD defaultOption
    let confidence := calculate_confidence selected sorted analysis
    match predict_outcome selected ctx with
    | .error e => .error e
    | .ok outcome =>
      .ok { selected_option := selected
            confidence := confidence
            expected_outcome := outcome
            alternative_options := sorted.tail
            risk_assessment := assess_risks selected ctx }

end Reason

namespace Predict

open Mem

/-- TrendPrediction dataclass (the free-text reasoning built by
_generate_trend_reasoning renders numbers as percent strings; the
rendering is not modelled, the branch structure is irrelevant to every
claim and the field is omitted). -/
structure TrendPrediction : Type where
  metric_name : String
  current_value : ℚ
  predicted_value : ℚ
  confidence : ℚ
  trend_direction : String
  time_horizon : ℕ
  factors : List String
  deriving Repr, DecidableEq

/-- PerformanceForecast dataclass. -/
structure PerformanceForecast : Type where
  metric : String
  current_performance : ℚ
  forecasted_performance : ℚ
  confidence_interval : ℚ × ℚ
  trend : String
  key_drivers : List String
  recommendations : List String
  deriving Repr, DecidableEq

/-- Sum over the index/value pairs of a list. -/
def idxSum (ys : List ℚ) (f : ℕ → ℚ → ℚ) : ℚ :=
  (ys.enum.map (fun p => f p.1 p.2)).sum

/-- Ordinary-least-squares slope of y against x = 0, 1, ..., n-1, as
computed by LinearRegression.fit and np.polyfit degree 1. -/
def olsSlope (ys : List ℚ) : ℚ :=
  let n : ℚ := ys.length
  let xbar := (n - 1) / 2
  let ybar := listMean ys
  idxSum ys (fun i y => ((i : ℚ) - xbar) * (y - ybar)) /
    idxSum ys (fun i _ => ((i : ℚ) - xbar) ^ 2)

/-- The matching OLS intercept. -/
def olsIntercept (ys : List ℚ) : ℚ :=
  listMean ys - olsSlope ys * ((ys.length : ℚ) - 1) / 2

/-- The fitted value at position x. -/
def olsPredict (ys : List ℚ) (x : ℚ) : ℚ := olsIntercept ys + olsSlope ys * x

/-- sklearn r2_score of the fit against the data: 1 - SSres/SStot.  For
constant data the OLS fit is exact, SSres = 0, and r2_score returns 1;
with SSres = 0 the ℚ convention 0/0 = 0 gives the same value. -/
def r2Score (ys : List ℚ) : ℚ :=
  let ssRes := idxSum ys (fun i y => (y - olsPredict ys i) ^ 2)
  let ssTot := (ys.map (fun y => (y - listMean ys) ^ 2)).sum
  1 - ssRes / ssTot

/-- AIPredictiveEngine._calculate_trend_confidence: R2 clamped to the
unit interval. -/
def calculate_trend_confidence (ys : List ℚ) : ℚ := min 1 (max 0 (r2Score ys))

/-- pandas sort_values("timestamp"): a stable ascending sort. -/
def sortByTimestamp (exps : List Experience) : List Experience :=
  exps.mergeSort (fun a b => a.timestamp ≤ b.timestamp)

/-- AIPredictiveEngine._identify_performance_factors.  The DataFrame
always carries a context column here, so context_factors is always
appended; pandas .std() is the sample standard deviation and is
compared against 0.1 through the equivalent squared comparison. -/
def identify_performance_factors (ys : List ℚ) : List String :=
  let f1 := ["context_factors"]
  let f2 := if sampleVar ys > 1/100 then f1 ++ ["high_variability"] else f1
  if listMean ys > 9/10 then f2 ++ ["high_performance"]
  else if listMean ys < 8/10 then f2 ++ ["low_performance"]
  else f2

/-- AIPredictiveEngine._predict_performance_trend: requires at least
min_data_points = 10 experiences, sorts them by timestamp, fits the OLS
line over the score sequence, extrapolates one step, and classifies the
direction against trend_sensitivity = 0.1. -/
def predict_performance_trend (exps : List Experience) : Option TrendPrediction :=
  if exps.length < 10 then none
  else
    let ys := (sortByTimestamp exps).map (·.performance_score)
    if ys.length < 3 then none
    else
      let slope := olsSlope ys
      let trend_direction :=
        if slope > 1/10 then "improving"
        else if slope < -(1/10) then "declining"
        else "stable"
      some { metric_name := "performance"
             current_value := ys.getLastD 0
             predicted_value := olsPredict ys ys.length
             confidence := calculate_trend_confidence ys
             trend_direction := trend_direction
             time_horizon := 30
             factors := identify_performance_factors ys }

/-- AIPredictiveEngine._predict_cost_trend: unimplemented, returns None. -/
def predict_cost_trend : Option TrendPrediction := none

/-- AIPredictiveEngine._predict_satisfaction_trend: unimplemented. -/
def predict_satisfaction_trend : Option TrendPrediction := none

/-- AIPredictiveEngine._predict_efficiency_trend: unimplemented. -/
def predict_efficiency_trend : Option TrendPrediction := none

/-- AIPredictiveEngine.predict_trends: the four candidate predictions,
keeping those that are not None. -/
def predict_trends (exps : List Experience) : List TrendPrediction :=
  [predict_performance_trend exps, predict_cost_trend,
   predict_satisfaction_trend, predict_efficiency_trend].filterMap id

/-- AIPredictiveEngine._identify_trend (used by forecast_performance):
the 0.01 slope tolerance. -/
def identify_trend (ys : List ℚ) : String :=
  if ys.length < 3 then "insufficient_data"
  else
    let slope := olsSlope ys
    if slope > 1/100 then "improving"
    else if slope < -(1/100) then "declining"
    else "stable"

/-- AIPredictiveEngine._create_default_forecast. -/
def create_default_forecast (metric : String) : PerformanceForecast :=
  { metric := metric
    current_performance := 1/2
    forecasted_performance := 1/2
    confidence_interval := (4/10, 6/10)
    trend := "insufficient_data"
    key_drivers := ["data_insufficient"]
    recommendations := ["Collect more data for accurate forecasting"] }

/-- AIPredictiveEngine._identify_key_drivers on a nonempty performance
DataFrame (the only way the non-default branch is reached). -/
def identify_key_drivers (metric : String) : List String :=
  let d1 := ["context_factors"]
  if metric = "performance" then
    d1 ++ ["calculation_accuracy", "parameter_tuning", "data_quality"]
  else if metric = "cost" then d1 ++ ["cost_distribution", "efficiency", "optimization"]
  else if metric = "satisfaction" then
    d1 ++ ["benefit_calculation", "employee_cost", "communication"]
  else d1

/-- AIPredictiveEngine._generate_forecast_recommendations. -/
def generate_forecast_recommendations (current forecasted : ℚ) (trend : String) :
    List String :=
  let r1 :=
    if trend = "declining" then ["Take immediate action to reverse declining trend"]
    else if trend = "improving" then ["Continue current strategies to maintain improvement"]
    else ["Monitor closely for trend changes"]
  let r2 :=
    if forecasted < 9/10 then
      r1 ++ ["Focus on improving performance to reach target levels"]
    else r1
  if |forecasted - current| > 5/100 then
    r2 ++ ["Prepare for significant performance change"]
  else r2

/-- AIPredictiveEngine.forecast_performance.  _prepare_historical_data
produces one row per experience only for the performance metric (sorted
by timestamp); below min_data_points = 10 rows the marked neutral
default is returned.  Otherwise the OLS model is trained (the row count
is at least 3, so _train_forecast_model succeeds), the forecast is
evaluated at n_features_in_ + horizon_days = 1 + horizon_days and
clamped, the confidence band is the fixed 0.05 margin, and the trend
comes from _identify_trend. -/
def forecast_performance (metric : String) (horizon_days : ℚ)
    (exps : List Experience) : PerformanceForecast :=
  let historical := if metric = "performance" then sortByTimestamp exps else []
  if historical.length < 10 then create_default_forecast metric
  else
    let ys := historical.map (·.performance_score)
    let current := ys.getLastD 0
    let forecasted := max 0 (min 1 (olsPredict ys (1 + horizon_days)))
    { metric := metric
      current_performance := current
      forecasted_performance := forecasted
      confidence_interval := (max 0 (forecasted - 5/100), min 1 (forecasted + 5/100))
      trend := identify_trend ys
      key_drivers := identify_key_drivers metric
      recommendations := generate_forecast_recommendations current forecasted
        (identify_trend ys) }

end Predict

/-! Concrete fixtures used by counterexamples and witnesses. -/

/-- A minimal stored experience with a given timestamp and performance
score. -/
def mkExp (t score : ℚ) : Mem.Experience :=
  ⟨t, "", [], ⟨none, []⟩, ⟨none, none, none, none⟩, score, none, []⟩

/-- A store holding exactly five experiences, the adaptation minimum. -/
def memFive : List Mem.Experience :=
  [mkExp 0 (1/2), mkExp 1 (1/2), mkExp 2 (1/2), mkExp 3 (1/2), mkExp 4 (1/2)]

/-- The Scenario B feedback: performance accuracy 0.85 and nothing else. -/
def fbScenarioB : Params.Feedback := ⟨some (some (85/100)), none, none, []⟩

/-! Bounds preservation (claim C1). -/

/-- The per-parameter step preserves the declared bounds. -/
lemma update_one_preserves_bounds (mem : List Mem.Experience) (now : ℚ)
    (fb : Params.Feedback) (e : Params.ParamEntry)
    (h : e.cfg.min_value ≤ e.cfg.current_value ∧ e.cfg.current_value ≤ e.cfg.max_value) :
    (Params.update_one mem now fb e).2.cfg.min_value ≤
      (Params.update_one mem now fb e).2.cfg.current_value ∧
    (Params.update_one mem now fb e).2.cfg.current_value ≤
      (Params.update_one mem now fb e).2.cfg.max_value := by
  unfold Params.update_one
  split
  · unfold Params.adapt_parameter
    dsimp only
    split
    · exact h
    · exact ⟨le_max_left _ _, max_le (h.1.trans h.2) (min_le_left _ _)⟩
  · exact h

/-- One full update_parameters_from_feedback call preserves the bounds
of every parameter. -/
lemma update_call_preserves_bounds (mem : List Mem.Experience) (now : ℚ)
    (fb : Params.Feedback) (st : List Params.ParamEntry)
    (h : ∀ e ∈ st, e.cfg.min_value ≤ e.cfg.current_value ∧
      e.cfg.current_value ≤ e.cfg.max_value) :
    ∀ e' ∈ (Params.update_parameters_from_feedback mem now fb st).2,
      e'.cfg.min_value ≤ e'.cfg.current_value ∧
      e'.cfg.current_value ≤ e'.cfg.max_value := by
  intro e' he'
  unfold Params.update_parameters_from_feedback at he'
  by_cases hlen : mem.length < 5
  · simp only [hlen, if_true] at he'
    exact h e' he'
  · simp only [hlen, if_false, List.map_map, List.mem_map] at he'
    obtain ⟨e, he, rfl⟩ := he'
    exact update_one_preserves_bounds mem now fb e (h e he)

/-- C1: for every parameter and every sequence of
update_parameters_from_feedback calls, if the current_value of the
parameter starts within its declared bounds, then after each adaptation
it is still within those bounds. -/
theorem c1_current_value_stays_in_bounds (calls : List Params.Call)
    (st : List Params.ParamEntry)
    (hinit : ∀ e ∈ st, e.cfg.min_value ≤ e.cfg.current_value ∧
      e.cfg.current_value ≤ e.cfg.max_value)
    (e' : Params.ParamEntry) (hmem : e' ∈ Params.runCalls calls st) :
    e'.cfg.min_value ≤ e'.cfg.current_value ∧
    e'.cfg.current_value ≤ e'.cfg.max_value := by
  induction calls generalizing st with
  | nil => exact hinit e' hmem
  | cons c cs ih =>
    exact ih _ (update_call_preserves_bounds c.mem c.now c.fb st hinit) hmem

/-- The bounds of the six default parameters hold initially. -/
lemma defaultParameters_in_bounds :
    ∀ e ∈ Params.defaultParameters, e.cfg.min_value ≤ e.cfg.current_value ∧
      e.cfg.current_value ≤ e.cfg.max_value := by
  intro e he
  fin_cases he <;>
    constructor <;>
      norm_num [Params.companyCostCfg, Params.employeeCostCfg, Params.vacationCfg,
        Params.terminationCfg, Params.safetyMarginCfg, Params.optimizationCfg]

/-- Scenario B feedback applied to the fresh default state adapts
nothing: every parameter has an empty adaptation history, hence counts
as stable, and the stability gate blocks every adaptation. -/
lemma scenarioB_default_noop :
    Params.update_parameters_from_feedback memFive 100 fbScenarioB
      Params.defaultParameters = ([], Params.defaultParameters) := by
  have hone : ∀ cfg : Params.ParameterConfig,
      Params.update_one memFive 100 fbScenarioB ⟨cfg, []⟩ =
        (none, ⟨cfg, []⟩) := by
    intro cfg
    simp [Params.update_one, Params.should_adapt_parameter, Params.is_parameter_stable]
  have hlen : ¬ memFive.length < 5 := by simp [memFive]
  simp [Params.update_parameters_from_feedback, hlen, Params.defaultParameters,
    Params.defaultWithHists, hone]

/-- Witness for C1 at a concrete call sequence and the default
parameter set. -/
theorem c1_witness :
    (⟨Params.companyCostCfg, []⟩ : Params.ParamEntry).cfg.min_value ≤
      (⟨Params.companyCostCfg, []⟩ : Params.ParamEntry).cfg.current_value ∧
    (⟨Params.companyCostCfg, []⟩ : Params.ParamEntry).cfg.current_value ≤
      (⟨Params.companyCostCfg, []⟩ : Params.ParamEntry).cfg.max_value :=
  c1_current_value_stays_in_bounds [⟨memFive, 100, fbScenarioB⟩]
    Params.defaultParameters defaultParameters_in_bounds _
    (by
      show _ ∈ Params.runCalls _ _
      simp only [Params.runCalls, List.foldl_cons, List.foldl_nil, scenarioB_default_noop]
      simp [Params.defaultParameters, Params.defaultWithHists])

/-! Frame property of the experience minimum (claim C10). -/

/-- C10: with fewer than 5 stored experiences,
update_parameters_from_feedback returns the empty adaptation list and
leaves every parameter and the whole adaptation history unchanged. -/
theorem c10_below_minimum_is_noop (mem : List Mem.Experience) (now : ℚ)
    (fb : Params.Feedback) (ps : List Params.ParamEntry)
    (h : mem.length < 5) :
    Params.update_parameters_from_feedback mem now fb ps = ([], ps) := by
  simp [Params.update_parameters_from_feedback, h]

/-- Witness for C10 at a concrete four-experience store. -/
theorem c10_witness :
    Params.update_parameters_from_feedback [mkExp 0 1, mkExp 1 1, mkExp 2 1, mkExp 3 1]
      50 fbScenarioB Params.defaultParameters = ([], Params.defaultParameters) :=
  c10_below_minimum_is_noop _ 50 fbScenarioB Params.defaultParameters (by decide)

/-! Scenario B (claim C3). -/

/-- A parameter whose adjustment rule yields zero is left untouched by
the update loop, whatever its gates say. -/
lemma update_one_zero_adjustment (mem : List Mem.Experience) (now : ℚ)
    (fb : Params.Feedback) (e : Params.ParamEntry)
    (h : Params.calculate_parameter_adjustment e.cfg fb = 0) :
    Params.update_one mem now fb e = (none, e) := by
  unfold Params.update_one
  split
  · unfold Params.adapt_parameter
    dsimp only
    rw [h]
    norm_num
  · rfl

/-- A parameter whose eligibility gate is closed is left untouched. -/
lemma update_one_blocked (mem : List Mem.Experience) (now : ℚ)
    (fb : Params.Feedback) (e : Params.ParamEntry)
    (h : Params.should_adapt_parameter e.cfg e.hist now fb = false) :
    Params.update_one mem now fb e = (none, e) := by
  simp [Params.update_one, h]

/-- A stable parameter is never eligible for adaptation. -/
lemma should_adapt_parameter_of_stable (cfg : Params.ParameterConfig)
    (hist : List Params.ParameterHistory) (now : ℚ) (fb : Params.Feedback)
    (h : Params.is_parameter_stable cfg hist = true) :
    Params.should_adapt_parameter cfg hist now fb = false := by
  simp [Params.should_adapt_parameter, h]

/-- Scenario B adjustment values: the company cost parameter gets no
adjustment from an accuracy-only feedback. -/
lemma adjustment_company :
    Params.calculate_parameter_adjustment Params.companyCostCfg fbScenarioB = 0 := by
  simp [Params.calculate_parameter_adjustment, Params.companyCostCfg, fbScenarioB,
    show (85:ℚ)/100 < 9/10 by norm_num]

/-- The employee cost parameter gets no Scenario B adjustment. -/
lemma adjustment_employee :
    Params.calculate_parameter_adjustment Params.employeeCostCfg fbScenarioB = 0 := by
  simp [Params.calculate_parameter_adjustment, Params.employeeCostCfg, fbScenarioB,
    show (85:ℚ)/100 < 9/10 by norm_num]

/-- The termination cutoff parameter gets no Scenario B adjustment. -/
lemma adjustment_termination :
    Params.calculate_parameter_adjustment Params.terminationCfg fbScenarioB = 0 := by
  simp [Params.calculate_parameter_adjustment, Params.terminationCfg, fbScenarioB,
    show (85:ℚ)/100 < 9/10 by norm_num]

/-- The optimization factor parameter gets no Scenario B adjustment. -/
lemma adjustment_optimization :
    Params.calculate_parameter_adjustment Params.optimizationCfg fbScenarioB = 0 := by
  simp [Params.calculate_parameter_adjustment, Params.optimizationCfg, fbScenarioB,
    show (85:ℚ)/100 < 9/10 by norm_num]

/-- The vacation benefit factor gets the Scenario B adjustment
learning_rate * 0.1 = 0.05 * 0.1 = 0.005. -/
lemma adjustment_vacation :
    Params.calculate_parameter_adjustment Params.vacationCfg fbScenarioB = 1/200 := by
  simp [Params.calculate_parameter_adjustment, Params.vacationCfg, fbScenarioB,
    show (85:ℚ)/100 < 9/10 by norm_num]
  norm_num

/-- The vacation parameter, when its gates are open, is adapted from
3.5 to 3.505 by Scenario B feedback. -/
lemma update_one_vacation (mem : List Mem.Experience) (now : ℚ)
    (h3 : List Params.ParameterHistory)
    (hvac1 : Params.is_parameter_stable Params.vacationCfg h3 = false)
    (hvac2 : Params.count_recent_adaptations h3 now < 3) :
    Params.update_one mem now fbScenarioB ⟨Params.vacationCfg, h3⟩ =
      (some { parameter_name := "vacation_benefit_factor"
              old_value := 35/10
              new_value := 701/200
              adjustment_amount := 1/200
              confidence := Params.calculate_adaptation_confidence mem
                "vacation_benefit_factor" fbScenarioB
              expected_impact := Params.predict_adaptation_impact
                "vacation_benefit_factor" (701/200) },
       ⟨{ Params.vacationCfg with current_value := 701/200 },
        Params.record_adaptation h3 now (701/200) fbScenarioB⟩) := by
  have hc : ¬ 3 ≤ Params.count_recent_adaptations h3 now := by omega
  have hshould : Params.should_adapt_parameter Params.vacationCfg h3 now fbScenarioB = true := by
    simp [Params.should_adapt_parameter, hvac1, hc, Params.has_relevant_feedback,
      fbScenarioB]
  have hnv : max Params.vacationCfg.min_value
      (min Params.vacationCfg.max_value (Params.vacationCfg.current_value + 1/200)) =
      701/200 := by
    norm_num [Params.vacationCfg]
  have habs : |(1:ℚ)/200| = 1/200 := abs_of_pos (by norm_num)
  have h1 : Params.update_one mem now fbScenarioB ⟨Params.vacationCfg, h3⟩ =
      Params.adapt_parameter mem now fbScenarioB ⟨Params.vacationCfg, h3⟩ := by
    simp [Params.update_one, hshould]
  rw [h1]
  unfold Params.adapt_parameter
  dsimp only
  rw [adjustment_vacation,
    if_neg (show ¬ (|(1:ℚ)/200| < 1/1000) from by rw [habs]; norm_num), hnv]
  simp [Params.vacationCfg]

/-- The vacation parameter history used by the Scenario B witness:
three adaptations between 8 and 10 days ago whose values vary enough to
defeat the stability gate. -/
def vacHist : List Params.ParameterHistory :=
  [⟨90, 35/10, 1/2⟩, ⟨91, 33/10, 1/2⟩, ⟨92, 37/10, 1/2⟩]

/-- C3 counterexample: on the state the claim describes (default
configurations, hence the fresh empty adaptation history) with five
stored experiences, Scenario B feedback adapts nothing at all: every
parameter counts as stable because it has no history, so the call
records zero AdaptationResults and vacation_benefit_factor stays 3.5,
not 3.505. -/
theorem c3_counterexample_scenarioB_default :
    Params.update_parameters_from_feedback memFive 100 fbScenarioB
        Params.defaultParameters = ([], Params.defaultParameters) ∧
    ([] : List Params.AdaptationResult).length ≠ 1 ∧ (35:ℚ)/10 ≠ 701/200 :=
  ⟨scenarioB_default_noop, by norm_num, by norm_num⟩

/-- C3 amended: when the Scenario B call is made with at least 5 stored
experiences, vacation_benefit_factor at its default 3.5 with an
adaptation history that is unstable and has fewer than 3 adaptations in
the trailing 7 days, and safety_margin ineligible (its gate closed),
the call records exactly one AdaptationResult, with delta
0.05 * 0.1 = 0.005 and new value 3.505, within the 2.0 - 5.0 bounds. -/
theorem c3_scenarioB_one_adaptation (mem : List Mem.Experience) (hm : ¬ mem.length < 5)
    (now : ℚ) (h1 h2 h3 h4 h5 h6 : List Params.ParameterHistory)
    (hvac1 : Params.is_parameter_stable Params.vacationCfg h3 = false)
    (hvac2 : Params.count_recent_adaptations h3 now < 3)
    (hsafe : Params.should_adapt_parameter Params.safetyMarginCfg h5 now fbScenarioB = false) :
    (Params.update_parameters_from_feedback mem now fbScenarioB
        (Params.defaultWithHists h1 h2 h3 h4 h5 h6)).1.map
      (fun r => (r.parameter_name, r.old_value, r.new_value, r.adjustment_amount)) =
      [("vacation_benefit_factor", 35/10, 701/200, 1/200)] ∧
    (2:ℚ) ≤ 701/200 ∧ (701/200:ℚ) ≤ 5 := by
  refine ⟨?_, by norm_num, by norm_num⟩
  unfold Params.update_parameters_from_feedback
  rw [if_neg hm]
  simp only [Params.defaultWithHists, List.map_cons, List.map_nil]
  rw [update_one_zero_adjustment _ _ _ _ adjustment_company,
      update_one_zero_adjustment _ _ _ _ adjustment_employee,
      update_one_vacation mem now h3 hvac1 hvac2,
      update_one_zero_adjustment _ _ _ _ adjustment_termination,
      update_one_blocked _ _ _ _ hsafe,
      update_one_zero_adjustment _ _ _ _ adjustment_optimization]
  simp

/-- The witness history defeats the stability gate. -/
lemma vacHist_unstable : Params.is_parameter_stable Params.vacationCfg vacHist = false := by
  simp [Params.is_parameter_stable, takeLast, vacHist, listVar, listMean, Params.vacationCfg]
  norm_num

/-- The witness history has no adaptation in the trailing 7 days of
time 100. -/
lemma vacHist_count : Params.count_recent_adaptations vacHist 100 < 3 := by
  simp [Params.count_recent_adaptations, vacHist]
  norm_num

/-- Witness for the amended C3 at a concrete state. -/
theorem c3_witness :
    (Params.update_parameters_from_feedback memFive 100 fbScenarioB
        (Params.defaultWithHists [] [] vacHist [] [] [])).1.map
      (fun r => (r.parameter_name, r.old_value, r.new_value, r.adjustment_amount)) =
      [("vacation_benefit_factor", 35/10, 701/200, 1/200)] ∧
    (2:ℚ) ≤ 701/200 ∧ (701/200:ℚ) ≤ 5 :=
  c3_scenarioB_one_adaptation memFive (by simp [memFive]) 100 [] [] vacHist [] [] []
    vacHist_unstable vacHist_count
    (should_adapt_parameter_of_stable _ _ _ _ (by simp [Params.is_parameter_stable]))

/-! The 7-day rate limit (claim C2). -/

/-- No window of width 7 days contains more than 3 recorded
adaptations. -/
def windowOK (h : List Params.ParameterHistory) : Prop :=
  ∀ w : ℚ,
    (h.filter (fun a => decide (w ≤ a.timestamp ∧ a.timestamp ≤ w + 7))).length ≤ 3

/-- The empty history satisfies the window bound. -/
lemma windowOK_nil : windowOK [] := by
  intro w
  simp

/-- Dropping old entries (the trim to the most recent 100) preserves
the window bound. -/
lemma windowOK_drop (h : List Params.ParameterHistory) (k : ℕ) (hw : windowOK h) :
    windowOK (h.drop k) := by
  intro w
  exact le_trans (((List.drop_sublist k h).filter _).length_le) (hw w)

/-- Appending an entry at time now preserves the window bound whenever
fewer than 3 recorded adaptations lie in the trailing 7 days of now:
any width-7 window containing the new entry starts no earlier than
now - 7, so the old entries it contains are all counted by
_count_recent_adaptations. -/
lemma windowOK_append (hist : List Params.ParameterHistory) (now v s : ℚ)
    (hw : windowOK hist)
    (hcnt : Params.count_recent_adaptations hist now < 3) :
    windowOK (hist ++ [⟨now, v, s⟩]) := by
  intro w
  rw [List.filter_append, List.length_append]
  by_cases hin : (w ≤ now ∧ now ≤ w + 7)
  · have h7 : now - 7 ≤ w := by linarith [hin.2]
    have hsub : (hist.filter
        (fun a => decide (w ≤ a.timestamp ∧ a.timestamp ≤ w + 7))).length ≤
        Params.count_recent_adaptations hist now := by
      refine (List.monotone_filter_right hist ?_).length_le
      intro a ha
      have ha2 : w ≤ a.timestamp ∧ a.timestamp ≤ w + 7 := of_decide_eq_true ha
      exact decide_eq_true (by linarith [ha2.1])
    have hone : (List.filter
        (fun a => decide (w ≤ a.timestamp ∧ a.timestamp ≤ w + 7))
        [(⟨now, v, s⟩ : Params.ParameterHistory)]).length ≤ 1 :=
      List.length_filter_le _ _
    omega
  · have hnone : (List.filter
        (fun a => decide (w ≤ a.timestamp ∧ a.timestamp ≤ w + 7))
        [(⟨now, v, s⟩ : Params.ParameterHistory)]).length = 0 := by
      rw [List.filter_singleton, decide_eq_false hin]
      rfl
    rw [hnone]
    simpa using hw w

/-- An eligible parameter had fewer than 3 adaptations in the trailing
7 days: _should_adapt_parameter opens the gate only below the limit. -/
lemma count_recent_lt_of_should_adapt (cfg : Params.ParameterConfig)
    (hist : List Params.ParameterHistory) (now : ℚ) (fb : Params.Feedback)
    (h : Params.should_adapt_parameter cfg hist now fb = true) :
    Params.count_recent_adaptations hist now < 3 := by
  by_contra hc
  push_neg at hc
  simp [Params.should_adapt_parameter, hc] at h

/-- The per-parameter step preserves the window bound. -/
lemma update_one_windowOK (mem : List Mem.Experience) (now : ℚ)
    (fb : Params.Feedback) (e : Params.ParamEntry) (hw : windowOK e.hist) :
    windowOK (Params.update_one mem now fb e).2.hist := by
  unfold Params.update_one
  by_cases hs : Params.should_adapt_parameter e.cfg e.hist now fb = true
  · have hcnt := count_recent_lt_of_should_adapt e.cfg e.hist now fb hs
    rw [if_pos hs]
    unfold Params.adapt_parameter
    dsimp only
    split
    · exact hw
    · show windowOK (Params.record_adaptation e.hist now _ fb)
      unfold Params.record_adaptation
      dsimp only
      have happ := windowOK_append e.hist now
        (max e.cfg.min_value (min e.cfg.max_value
          (e.cfg.current_value + Params.calculate_parameter_adjustment e.cfg fb)))
        ((fb.perfAccuracy.getD none).getD (1/2)) hw hcnt
      split
      · exact windowOK_drop _ _ happ
      · exact happ
  · rw [if_neg hs]
    exact hw

/-- One full update_parameters_from_feedback call preserves the window
bound of every parameter. -/
lemma update_call_windowOK (mem : List Mem.Experience) (now : ℚ)
    (fb : Params.Feedback) (st : List Params.ParamEntry)
    (h : ∀ e ∈ st, windowOK e.hist) :
    ∀ e' ∈ (Params.update_parameters_from_feedback mem now fb st).2,
      windowOK e'.hist := by
  intro e' he'
  unfold Params.update_parameters_from_feedback at he'
  by_cases hlen : mem.length < 5
  · simp only [hlen, if_true] at he'
    exact h e' he'
  · simp only [hlen, if_false, List.map_map, List.mem_map] at he'
    obtain ⟨e, he, rfl⟩ := he'
    exact update_one_windowOK mem now fb e (h e he)

/-- C2: a parameter with 3 or more adaptations recorded in the trailing
7 days is not adapted by the call (the update step leaves it untouched),
and consequently, over every sequence of update_parameters_from_feedback
calls starting from histories satisfying the window bound, no parameter
ever accrues more than 3 recorded adaptations within any trailing 7-day
window. -/
theorem c2_seven_day_rate_limit
    (mem2 : List Mem.Experience) (now2 : ℚ) (fb2 : Params.Feedback)
    (e2 : Params.ParamEntry)
    (hcnt : 3 ≤ Params.count_recent_adaptations e2.hist now2)
    (calls : List Params.Call) (st : List Params.ParamEntry)
    (hwin : ∀ e ∈ st, windowOK e.hist)
    (e' : Params.ParamEntry) (hmem : e' ∈ Params.runCalls calls st) :
    Params.update_one mem2 now2 fb2 e2 = (none, e2) ∧ windowOK e'.hist := by
  constructor
  · have hs : Params.should_adapt_parameter e2.cfg e2.hist now2 fb2 = false := by
      simp [Params.should_adapt_parameter, hcnt]
    simp [Params.update_one, hs]
  · induction calls generalizing st with
    | nil => exact hwin e' hmem
    | cons c cs ih =>
      exact ih _ (update_call_windowOK c.mem c.now c.fb st hwin) hmem

/-- A history with 3 adaptations inside the trailing 7 days of time
100, used by the C2 witness. -/
def recentHist : List Params.ParameterHistory :=
  [⟨95, 35/10, 1/2⟩, ⟨96, 36/10, 1/2⟩, ⟨97, 35/10, 1/2⟩]

/-- Witness for C2 at a concrete rate-limited parameter and a concrete
call sequence. -/
theorem c2_witness :
    Params.update_one memFive 100 fbScenarioB ⟨Params.vacationCfg, recentHist⟩ =
      (none, ⟨Params.vacationCfg, recentHist⟩) ∧
    windowOK ((⟨Params.vacationCfg, []⟩ : Params.ParamEntry).hist) :=
  c2_seven_day_rate_limit memFive 100 fbScenarioB ⟨Params.vacationCfg, recentHist⟩
    (by simp [Params.count_recent_adaptations, recentHist]; norm_num)
    [⟨memFive, 100, fbScenarioB⟩] [⟨Params.vacationCfg, []⟩]
    (by
      intro e he
      simp only [List.mem_singleton] at he
      subst he
      exact windowOK_nil)
    ⟨Params.vacationCfg, []⟩
    (by
      show _ ∈ Params.runCalls _ _
      simp only [Params.runCalls, List.foldl_cons, List.foldl_nil]
      have : Params.update_one memFive 100 fbScenarioB ⟨Params.vacationCfg, []⟩ =
          (none, ⟨Params.vacationCfg, []⟩) :=
        update_one_blocked _ _ _ _
          (should_adapt_parameter_of_stable _ _ _ _ (by simp [Params.is_parameter_stable]))
      have hlen : ¬ memFive.length < 5 := by simp [memFive]
      simp [Params.update_parameters_from_feedback, hlen, this])

/-! Option evaluation and selection (claims C4 and C5). -/

/-- A conservative option with its own confidence 0.9. -/
def optConservative : Reason.DecisionOption := ⟨"conservative", "", [], 1/2, 9/10, "", [], []⟩

/-- An optimized option that scores best. -/
def optOptimized : Reason.DecisionOption := ⟨"optimized", "", [], 1, 1, "", [], []⟩

/-- An option whose strategy name is outside the four-entry catalog. -/
def optCustom : Reason.DecisionOption := ⟨"custom", "", [], 1/2, 9/10, "", [], []⟩

/-- A low-risk zero-complexity analysis. -/
def anaLow : Reason.AnalysisResult := ⟨"small_scale", 0, "low", [], [], [], []⟩

/-- An empty reasoning context. -/
def ctxEmpty : Reason.RContext := ⟨none, none, none, none⟩

/-- Score of the conservative fixture option. -/
lemma eval_optConservative :
    Reason.evaluate_option [] [] optConservative anaLow = 31/50 := by
  simp [Reason.evaluate_option, Reason.calculate_situation_fit,
    Reason.calculate_historical_score, Mem.retrieve_similar_experiences,
    optConservative, anaLow]
  norm_num

/-- Score of the optimized fixture option. -/
lemma eval_optOptimized :
    Reason.evaluate_option [] [] optOptimized anaLow = 17/20 := by
  simp [Reason.evaluate_option, Reason.calculate_situation_fit,
    Reason.calculate_historical_score, Mem.retrieve_similar_experiences,
    optOptimized, anaLow]
  norm_num

/-- Scoring and sorting the singleton conservative option. -/
lemma evaluatedSorted_single :
    Reason.evaluatedSorted [] [] [optConservative] anaLow =
      [{ optConservative with expected_performance := 31/50 }] := by
  simp [Reason.evaluatedSorted, eval_optConservative, List.mergeSort]

/-- Scoring and sorting the two fixture options: optimized (0.85)
comes before conservative (0.62). -/
lemma evaluatedSorted_pair :
    Reason.evaluatedSorted [] [] [optConservative, optOptimized] anaLow =
      [{ optOptimized with expected_performance := 17/20 },
       { optConservative with expected_performance := 31/50 }] := by
  simp [Reason.evaluatedSorted, eval_optConservative, eval_optOptimized, List.mergeSort]
  norm_num

/-- C4 counterexample: a nonempty option list whose selected option has
a non-catalog strategy name makes evaluate_and_select_option raise
(UnboundLocalError in _estimate_cost), contradicting the claim that a
non-empty list never raises. -/
theorem c4_counterexample_noncatalog_raises :
    ([optCustom] : List Reason.DecisionOption) ≠ [] ∧
    Reason.evaluate_and_select_option [] [] [optCustom] anaLow ctxEmpty =
      .error "UnboundLocalError: cost_factor referenced before assignment" := by
  refine ⟨by simp, ?_⟩
  have hsorted : Reason.evaluatedSorted [] [] [optCustom] anaLow =
      [{ optCustom with expected_performance :=
          Reason.evaluate_option [] [] optCustom anaLow }] := by
    simp [Reason.evaluatedSorted, List.mergeSort]
  unfold Reason.evaluate_and_select_option
  rw [if_neg (by simp)]
  dsimp only
  rw [hsorted]
  simp [Reason.predict_outcome, Reason.estimate_cost, optCustom]

/-- Every catalog-named option has a defined cost estimate. -/
lemma estimate_cost_of_catalog (opt : Reason.DecisionOption)
    (h : opt.name ∈ (["conservative", "optimized", "adaptive", "innovative"] : List String)) :
    ∃ c, Reason.estimate_cost opt = .ok c := by
  simp only [List.mem_cons, List.not_mem_nil, or_false] at h
  rcases h with h | h | h | h
  · exact ⟨1000 * 1, by simp [Reason.estimate_cost, h]⟩
  · exact ⟨1000 * (9/10), by simp [Reason.estimate_cost, h]⟩
  · exact ⟨1000 * (11/10), by simp [Reason.estimate_cost, h]⟩
  · exact ⟨1000 * (13/10), by simp [Reason.estimate_cost, h]⟩

/-- C4 amended: with an empty option list the call raises ValueError;
with a non-empty list it raises exactly when the selected (top-scoring)
option carries a strategy name outside the four-entry catalog, and
succeeds whenever the selected name is in the catalog. -/
theorem c4_empty_raises_catalog_succeeds (sims : List ℚ) (exps : List Mem.Experience)
    (options : List Reason.DecisionOption) (analysis : Reason.AnalysisResult)
    (ctx : Reason.RContext)
    (hne : options ≠ [])
    (hname : ((Reason.evaluatedSorted sims exps options analysis).headD
        Reason.defaultOption).name ∈
      (["conservative", "optimized", "adaptive", "innovative"] : List String)) :
    (Reason.evaluate_and_select_option sims exps options analysis ctx).isOk = true ∧
    Reason.evaluate_and_select_option sims exps [] analysis ctx =
      .error "ValueError: No decision options provided" := by
  constructor
  · obtain ⟨c, hc⟩ := estimate_cost_of_catalog _ hname
    unfold Reason.evaluate_and_select_option
    rw [if_neg (by simpa using hne)]
    dsimp only
    rw [Reason.predict_outcome, hc]
    rfl
  · rfl

/-- Witness for the amended C4 at the conservative fixture option. -/
theorem c4_witness :
    (Reason.evaluate_and_select_option [] [] [optConservative] anaLow ctxEmpty).isOk
      = true ∧
    Reason.evaluate_and_select_option [] [] [] anaLow ctxEmpty =
      .error "ValueError: No decision options provided" :=
  c4_empty_raises_catalog_succeeds [] [] [optConservative] anaLow ctxEmpty
    (by simp)
    (by rw [evaluatedSorted_single]; simp [optConservative])

/-- C5 counterexample: with a single option the decision confidence is
the option's own confidence (0.9 here), not 0.5 plus half the gap to a
runner-up (which would give 0.5 reading the gap as zero, or 0.81
reading the missing runner-up score as zero); complexity is 0 and risk
is low, so no reduction applies. -/
theorem c5_counterexample_singleton :
    (Reason.evaluate_and_select_option [] [] [optConservative] anaLow ctxEmpty).map
      (fun r => r.confidence) = .ok (9/10) ∧
    Reason.evaluate_option [] [] optConservative anaLow = 31/50 ∧
    (9:ℚ)/10 ≠ 1/2 + (31/50 - 31/50) * (1/2) ∧
    (9:ℚ)/10 ≠ 1/2 + (31/50 - 0) * (1/2) := by
  refine ⟨?_, eval_optConservative, by norm_num, by norm_num⟩
  unfold Reason.evaluate_and_select_option
  rw [if_neg (by simp)]
  dsimp only
  rw [evaluatedSorted_single]
  simp [Reason.predict_outcome, Reason.estimate_cost, Reason.calculate_confidence,
    optConservative, anaLow]
  norm_num
  rfl

/-- Scoring does not change the number of options. -/
lemma evaluatedSorted_length (sims : List ℚ) (exps : List Mem.Experience)
    (options : List Reason.DecisionOption) (analysis : Reason.AnalysisResult) :
    (Reason.evaluatedSorted sims exps options analysis).length = options.length := by
  simp [Reason.evaluatedSorted, List.length_mergeSort]

/-- C5 amended: for every options list with at least two entries, the
returned confidence is 0.5 plus half the gap between the top score and
the runner-up score (the first two entries of the stable descending
sort of the scored options), minus complexity times 0.2, minus 0.1 in a
high-risk analysis, clamped to the unit interval.  (With a single
option the base is the option's own confidence instead, see the
counterexample.) -/
theorem c5_confidence_formula (sims : List ℚ) (exps : List Mem.Experience)
    (options : List Reason.DecisionOption) (analysis : Reason.AnalysisResult)
    (ctx : Reason.RContext) (r : Reason.DecisionResult)
    (h2 : 2 ≤ options.length)
    (hok : Reason.evaluate_and_select_option sims exps options analysis ctx = .ok r) :
    r.confidence = min 1 (max 0
      ((1/2 + (((Reason.evaluatedSorted sims exps options analysis).headD
            Reason.defaultOption).expected_performance -
          ((Reason.evaluatedSorted sims exps options analysis).getD 1
            Reason.defaultOption).expected_performance) * (1/2))
        - analysis.complexity_score * (2/10)
        - (if analysis.risk_level = "high" then 1/10 else 0))) := by
  have hne : options ≠ [] := by
    intro h
    rw [h] at h2
    simp at h2
  unfold Reason.evaluate_and_select_option at hok
  rw [if_neg (by simpa using hne)] at hok
  dsimp only at hok
  rcases hco : Reason.predict_outcome
      ((Reason.evaluatedSorted sims exps options analysis).headD Reason.defaultOption)
      ctx with e | o
  · rw [hco] at hok
    exact absurd hok (by simp)
  · rw [hco] at hok
    simp only [Except.ok.injEq] at hok
    subst hok
    show Reason.calculate_confidence _ _ _ = _
    unfold Reason.calculate_confidence
    dsimp only
    have hlen : (Reason.evaluatedSorted sims exps options analysis).length > 1 := by
      rw [evaluatedSorted_length]
      omega
    rw [if_pos hlen]
    by_cases hrisk : analysis.risk_level = "high"
    · rw [if_pos hrisk, if_pos hrisk]
    · rw [if_neg hrisk, if_neg hrisk, sub_zero]

/-- The decision returned on the two fixture options. -/
def rPair : Reason.DecisionResult :=
  { selected_option := { name := "optimized", description := "", parameters := []
                         expected_performance := 17/20, confidence := 1, reasoning := ""
                         risks := [], benefits := [] }
    confidence := 123/200
    expected_outcome := { expected_accuracy := 17/20, confidence := 1
                          estimated_processing_time := 60, estimated_cost := 900
                          risk_level := "low" }
    alternative_options := [{ name := "conservative", description := "", parameters := []
                              expected_performance := 31/50, confidence := 9/10
                              reasoning := "", risks := [], benefits := [] }]
    risk_assessment := [("performance_risk", 3/20), ("time_risk", 1/10),
      ("cost_risk", 3/10), ("compliance_risk", 1/20)] }

/-- Full evaluation of the two fixture options. -/
lemma eval_pair :
    Reason.evaluate_and_select_option [] [] [optConservative, optOptimized]
      anaLow ctxEmpty = .ok rPair := by
  unfold Reason.evaluate_and_select_option
  rw [if_neg (by simp)]
  dsimp only
  rw [evaluatedSorted_pair]
  simp [Reason.predict_outcome, Reason.estimate_cost, Reason.calculate_confidence,
    Reason.estimate_processing_time, Reason.assess_outcome_risk, Reason.assess_risks,
    optConservative, optOptimized, anaLow, ctxEmpty, rPair]
  norm_num

/-- Witness for the amended C5 at the two fixture options. -/
theorem c5_witness :
    rPair.confidence = min 1 (max 0
      ((1/2 + (((Reason.evaluatedSorted [] [] [optConservative, optOptimized]
            anaLow).headD Reason.defaultOption).expected_performance -
          ((Reason.evaluatedSorted [] [] [optConservative, optOptimized]
            anaLow).getD 1 Reason.defaultOption).expected_performance) * (1/2))
        - anaLow.complexity_score * (2/10)
        - (if anaLow.risk_level = "high" then 1/10 else 0))) :=
  c5_confidence_formula [] [] [optConservative, optOptimized] anaLow ctxEmpty rPair
    (by simp) eval_pair

/-! Similarity retrieval (claim C6). -/

/-- Python tuple comparison is transitive. -/
lemma pairLexLe_trans (a b c : ℚ × ℚ) (h1 : Mem.pairLexLe a b = true)
    (h2 : Mem.pairLexLe b c = true) : Mem.pairLexLe a c = true := by
  simp only [Mem.pairLexLe, Bool.or_eq_true, Bool.and_eq_true, decide_eq_true_eq] at *
  rcases h1 with h1 | ⟨h1e, h1le⟩ <;> rcases h2 with h2 | ⟨h2e, h2le⟩
  · exact Or.inl (h1.trans h2)
  · exact Or.inl (h2e ▸ h1)
  · exact Or.inl (by rw [h1e]; exact h2)
  · exact Or.inr ⟨h1e.trans h2e, h1le.trans h2le⟩

/-- Python tuple comparison is total. -/
lemma pairLexLe_total (a b : ℚ × ℚ) :
    (Mem.pairLexLe a b || Mem.pairLexLe b a) = true := by
  simp only [Mem.pairLexLe, Bool.or_eq_true, Bool.and_eq_true, decide_eq_true_eq]
  rcases lt_trichotomy a.1 b.1 with h | h | h
  · exact Or.inl (Or.inl h)
  · rcases le_total a.2 b.2 with h2 | h2
    · exact Or.inl (Or.inr ⟨h, h2⟩)
    · exact Or.inr (Or.inr ⟨h.symm, h2⟩)
  · exact Or.inr (Or.inl h)

set_option maxHeartbeats 1000000 in
/-- C6: every experience returned by retrieve_similar_experiences has
similarity at least the given threshold, the returned list is ordered
by (similarity descending, performance descending), and an empty store
yields the empty list rather than an error. -/
theorem c6_retrieve_threshold_sorted_empty (sims : List ℚ) (exps : List Mem.Experience)
    (threshold : ℚ) (max_results : ℕ) (x : Mem.ScoredExperience)
    (hx : x ∈ Mem.retrieve_similar_experiences sims exps threshold max_results) :
    threshold ≤ x.similarity_score ∧
    List.Pairwise (fun a b => Mem.pairLexLe
        (b.similarity_score, b.exp.performance_score)
        (a.similarity_score, a.exp.performance_score) = true)
      (Mem.retrieve_similar_experiences sims exps threshold max_results) ∧
    Mem.retrieve_similar_experiences sims [] threshold max_results = [] := by
  refine ⟨?_, ?_, rfl⟩
  · unfold Mem.retrieve_similar_experiences at hx
    by_cases he : exps.isEmpty
    · rw [if_pos he] at hx
      cases hx
    · rw [if_neg he] at hx
      dsimp only at hx
      have hx1 : x ∈ ((sims.zip exps).filter
          (fun p => decide (threshold ≤ p.1))).map
          (fun p => Mem.ScoredExperience.mk p.1 p.2) :=
        (List.mergeSort_perm _ _).subset (List.mem_of_mem_take hx)
      obtain ⟨p, hp, rfl⟩ := List.mem_map.mp hx1
      have hflt : decide (threshold ≤ p.1) = true := (List.mem_filter.mp hp).2
      exact of_decide_eq_true hflt
  · unfold Mem.retrieve_similar_experiences
    by_cases he : exps.isEmpty
    · rw [if_pos he]
      exact List.Pairwise.nil
    · rw [if_neg he]
      dsimp only
      have hsorted : List.Pairwise
          (fun a b : Mem.ScoredExperience => Mem.pairLexLe
            (b.similarity_score, b.exp.performance_score)
            (a.similarity_score, a.exp.performance_score) = true)
          ((((sims.zip exps).filter (fun p => decide (threshold ≤ p.1))).map
            (fun p => Mem.ScoredExperience.mk p.1 p.2)).mergeSort
            (fun a b => Mem.pairLexLe
              (b.similarity_score, b.exp.performance_score)
              (a.similarity_score, a.exp.performance_score))) :=
        List.sorted_mergeSort
          (fun a b c hab hbc => pairLexLe_trans
            (c.similarity_score, c.exp.performance_score)
            (b.similarity_score, b.exp.performance_score)
            (a.similarity_score, a.exp.performance_score) hbc hab)
          (fun a b => pairLexLe_total
            (b.similarity_score, b.exp.performance_score)
            (a.similarity_score, a.exp.performance_score)) _
      exact List.Pairwise.sublist (List.take_sublist _ _) hsorted

/-- The concrete store of the C6 witness: retrieval keeps the two
experiences at or above the 0.7 threshold and orders them by
similarity. -/
lemma retrieve_concrete :
    Mem.retrieve_similar_experiences [8/10, 3/10, 9/10]
      [mkExp 1 (3/10), mkExp 2 (1/2), mkExp 3 (9/10)] (7/10) 10 =
      [⟨9/10, mkExp 3 (9/10)⟩, ⟨8/10, mkExp 1 (3/10)⟩] := by
  unfold Mem.retrieve_similar_experiences
  rw [if_neg (by simp)]
  dsimp only
  rw [show ([8/10, 3/10, 9/10] : List ℚ).zip
      [mkExp 1 (3/10), mkExp 2 (1/2), mkExp 3 (9/10)] =
      [(8/10, mkExp 1 (3/10)), (3/10, mkExp 2 (1/2)), (9/10, mkExp 3 (9/10))] from rfl]
  rw [show List.filter (fun p => decide ((7:ℚ)/10 ≤ p.1))
      [((8:ℚ)/10, mkExp 1 (3/10)), (3/10, mkExp 2 (1/2)), (9/10, mkExp 3 (9/10))] =
      [(8/10, mkExp 1 (3/10)), (9/10, mkExp 3 (9/10))] from by
    simp [List.filter]
    norm_num]
  simp [List.mergeSort, Mem.pairLexLe, mkExp]
  norm_num

/-- Witness for C6 at the concrete store. -/
theorem c6_witness :
    (7:ℚ)/10 ≤ (⟨9/10, mkExp 3 (9/10)⟩ : Mem.ScoredExperience).similarity_score ∧
    List.Pairwise (fun a b => Mem.pairLexLe
        (b.similarity_score, b.exp.performance_score)
        (a.similarity_score, a.exp.performance_score) = true)
      (Mem.retrieve_similar_experiences [8/10, 3/10, 9/10]
        [mkExp 1 (3/10), mkExp 2 (1/2), mkExp 3 (9/10)] (7/10) 10) ∧
    Mem.retrieve_similar_experiences [8/10, 3/10, 9/10] [] (7/10) 10 = [] :=
  c6_retrieve_threshold_sorted_empty [8/10, 3/10, 9/10]
    [mkExp 1 (3/10), mkExp 2 (1/2), mkExp 3 (9/10)] (7/10) 10
    ⟨9/10, mkExp 3 (9/10)⟩
    (by rw [retrieve_concrete]; exact List.Mem.head _)

/-! Context fingerprints (claim C7). -/

/-- The canonical serialization sort yields key-sorted entries. -/
lemma mergeSort_sorted_keys (l : Mem.Ctx) :
    List.Pairwise (fun a b : String × Mem.JVal => a.1 ≤ b.1)
      (l.mergeSort (fun a b => a.1 ≤ b.1)) := by
  have h := @List.sorted_mergeSort (String × Mem.JVal)
    (fun a b => a.1 ≤ b.1)
    (fun a b c hab hbc =>
      decide_eq_true (le_trans (of_decide_eq_true hab) (of_decide_eq_true hbc)))
    (fun a b => by rcases le_total a.1 b.1 with h | h <;> simp [h]) l
  exact h.imp (fun hab => of_decide_eq_true hab)

/-- With pairwise-distinct keys the key-sorted entry list is strictly
sorted. -/
lemma mergeSort_sorted_strict (l : Mem.Ctx) (h : (l.map Prod.fst).Nodup) :
    List.Pairwise (fun a b : String × Mem.JVal => a.1 < b.1)
      (l.mergeSort (fun a b => a.1 ≤ b.1)) := by
  have hle := mergeSort_sorted_keys l
  have hperm : (l.mergeSort (fun a b => a.1 ≤ b.1)).Perm l := List.mergeSort_perm l _
  have hnd : ((l.mergeSort (fun a b => a.1 ≤ b.1)).map Prod.fst).Nodup :=
    (List.Perm.nodup_iff (hperm.map Prod.fst)).mpr h
  have hne : List.Pairwise (fun a b : String × Mem.JVal => a.1 ≠ b.1)
      (l.mergeSort (fun a b => a.1 ≤ b.1)) := List.pairwise_map.mp hnd
  exact (hle.and hne).imp (fun hab => lt_of_le_of_ne hab.1 hab.2)

/-- Two permuted entry lists with shared distinct keys have the same
key-sorted form: sorting is a canonical form on dict items. -/
lemma mergeSort_eq_of_perm (l1 l2 : Mem.Ctx) (hperm : l1.Perm l2)
    (hnd : (l1.map Prod.fst).Nodup) :
    l1.mergeSort (fun a b => a.1 ≤ b.1) = l2.mergeSort (fun a b => a.1 ≤ b.1) := by
  have hnd2 : (l2.map Prod.fst).Nodup := ((hperm.map Prod.fst).nodup_iff).mp hnd
  have hp : (l1.mergeSort (fun a b => a.1 ≤ b.1)).Perm
      (l2.mergeSort (fun a b => a.1 ≤ b.1)) :=
    (List.mergeSort_perm l1 _).trans (hperm.trans (List.mergeSort_perm l2 _).symm)
  haveI : IsAntisymm (String × Mem.JVal) (fun a b => a.1 < b.1) :=
    ⟨fun _ _ h1 h2 => absurd h2 (lt_asymm h1)⟩
  exact List.eq_of_perm_of_sorted hp
    (mergeSort_sorted_strict l1 hnd) (mergeSort_sorted_strict l2 hnd2)

/-- The Experience record appended by one store_experience call. -/
def storedExp (now : ℚ) (ctx : Mem.Ctx) (d : Mem.Decision) (o : Mem.Outcome)
    (f : Option Mem.StoreFeedback) : Mem.Experience :=
  { timestamp := now
    context_hash := Mem.generate_context_hash ctx
    context := ctx
    decision := d
    outcome := o
    performance_score := Mem.calculate_performance_score o f
    feedback := f
    tags := Mem.generate_tags ctx d o }

/-- Insight generation never touches the experience log. -/
lemma insights_preserve_experiences (st : Mem.MemState) (exp : Mem.Experience) :
    (Mem.generate_insights_from_experience st exp).experiences = st.experiences := by
  unfold Mem.generate_insights_from_experience
  split <;> rfl

/-- store_experience appends exactly one experience record. -/
lemma store_experience_appends (st : Mem.MemState) (now : ℚ) (ctx : Mem.Ctx)
    (d : Mem.Decision) (o : Mem.Outcome) (f : Option Mem.StoreFeedback) :
    (Mem.store_experience st now ctx d o f).2.experiences =
      st.experiences ++ [storedExp now ctx d o f] := by
  unfold Mem.store_experience
  dsimp only
  rw [insights_preserve_experiences]
  rfl

/-- C7: the fingerprint is independent of dict insertion order (for
contexts with identical key/value pairs and, as in any Python dict,
distinct keys), and storing the same context twice in succession
appends two distinct experience entries to the store. -/
theorem c7_fingerprint_and_double_store (ctx1 ctx2 : Mem.Ctx) (hperm : ctx1.Perm ctx2)
    (hnd : (ctx1.map Prod.fst).Nodup) (st : Mem.MemState) (t1 t2 : ℚ) (hne : t1 ≠ t2)
    (d : Mem.Decision) (o : Mem.Outcome) (f : Option Mem.StoreFeedback) :
    Mem.generate_context_hash ctx1 = Mem.generate_context_hash ctx2 ∧
    ∃ e1 e2 : Mem.Experience, e1 ≠ e2 ∧
      (Mem.store_experience (Mem.store_experience st t1 ctx1 d o f).2
          t2 ctx1 d o f).2.experiences = st.experiences ++ [e1, e2] := by
  constructor
  · unfold Mem.generate_context_hash Mem.dumpsSorted
    rw [mergeSort_eq_of_perm ctx1 ctx2 hperm hnd]
  · refine ⟨storedExp t1 ctx1 d o f, storedExp t2 ctx1 d o f, ?_, ?_⟩
    · intro h
      exact hne (congrArg Mem.Experience.timestamp h)
    · rw [store_experience_appends, store_experience_appends, List.append_assoc]
      rfl

/-- Witness for C7 at two concrete permuted contexts. -/
theorem c7_witness :
    Mem.generate_context_hash [("b", Mem.JVal.jbool true), ("a", Mem.JVal.jstr "x")] =
      Mem.generate_context_hash [("a", Mem.JVal.jstr "x"), ("b", Mem.JVal.jbool true)] ∧
    ∃ e1 e2 : Mem.Experience, e1 ≠ e2 ∧
      (Mem.store_experience
          (Mem.store_experience ⟨[], []⟩ 1 [("b", Mem.JVal.jbool true), ("a", Mem.JVal.jstr "x")]
            ⟨none, []⟩ ⟨none, none, none, none⟩ none).2
          2 [("b", Mem.JVal.jbool true), ("a", Mem.JVal.jstr "x")]
          ⟨none, []⟩ ⟨none, none, none, none⟩ none).2.experiences =
        (⟨[], []⟩ : Mem.MemState).experiences ++ [e1, e2] :=
  c7_fingerprint_and_double_store
    [("b", Mem.JVal.jbool true), ("a", Mem.JVal.jstr "x")] [("a", Mem.JVal.jstr "x"), ("b", Mem.JVal.jbool true)]
    (List.Perm.swap ("a", Mem.JVal.jstr "x") ("b", Mem.JVal.jbool true) [])
    (by simp) ⟨[], []⟩ 1 2 (by norm_num)
    ⟨none, []⟩ ⟨none, none, none, none⟩ none

/-! Sparse-data behavior of the predictive engine (claim C8). -/

/-- Sorting by timestamp does not change the number of rows. -/
lemma sortByTimestamp_length (exps : List Mem.Experience) :
    (Predict.sortByTimestamp exps).length = exps.length := by
  simp [Predict.sortByTimestamp, List.length_mergeSort]

/-- C8: with fewer than 10 stored experiences predict_trends returns
the empty list and forecast_performance returns the marked neutral
default with trend insufficient_data and current = forecast = 0.5,
for every metric and horizon; no error is possible. -/
theorem c8_insufficient_data_defaults (exps : List Mem.Experience)
    (h : exps.length < 10) (metric : String) (horizon_days : ℚ) :
    Predict.predict_trends exps = [] ∧
    Predict.forecast_performance metric horizon_days exps =
      Predict.create_default_forecast metric ∧
    (Predict.create_default_forecast metric).trend = "insufficient_data" ∧
    (Predict.create_default_forecast metric).current_performance = 1/2 ∧
    (Predict.create_default_forecast metric).forecasted_performance = 1/2 := by
  refine ⟨?_, ?_, rfl, rfl, rfl⟩
  · simp [Predict.predict_trends, Predict.predict_performance_trend, h,
      Predict.predict_cost_trend, Predict.predict_satisfaction_trend,
      Predict.predict_efficiency_trend]
  · unfold Predict.forecast_performance
    by_cases hm : metric = "performance"
    · rw [if_pos hm, if_pos (by rw [sortByTimestamp_length]; omega)]
    · rw [if_neg hm, if_pos (by simp)]

/-- Witness for C8 at the empty store. -/
theorem c8_witness :
    Predict.predict_trends [] = [] ∧
    Predict.forecast_performance "performance" 30 [] =
      Predict.create_default_forecast "performance" ∧
    (Predict.create_default_forecast "performance").trend = "insufficient_data" ∧
    (Predict.create_default_forecast "performance").current_performance = 1/2 ∧
    (Predict.create_default_forecast "performance").forecasted_performance = 1/2 :=
  c8_insufficient_data_defaults [] (by simp) "performance" 30

/-! Trend classification tolerance (claim C9). -/

/-- Ten experiences whose scores rise linearly by 0.05 per step: the
fitted slope is 0.05, above the claimed 0.01 tolerance and below the
trend_sensitivity 0.1 the code actually uses. -/
def exps10 : List Mem.Experience :=
  [mkExp 0 (1/2), mkExp 1 (11/20), mkExp 2 (3/5), mkExp 3 (13/20),
   mkExp 4 (7/10), mkExp 5 (3/4), mkExp 6 (4/5), mkExp 7 (17/20),
   mkExp 8 (9/10), mkExp 9 (19/20)]

/-- The score sequence of the fixture store. -/
def ys10 : List ℚ :=
  [1/2, 11/20, 3/5, 13/20, 7/10, 3/4, 4/5, 17/20, 9/10, 19/20]

/-- The fixture store is already timestamp-sorted. -/
lemma sort_exps10 : Predict.sortByTimestamp exps10 = exps10 := by
  simp [Predict.sortByTimestamp, exps10, List.mergeSort, mkExp]
  norm_num

/-- Scores of the fixture store. -/
lemma map_exps10 : exps10.map (fun e => e.performance_score) = ys10 := by
  simp [exps10, mkExp, ys10]

/-- The OLS slope of the fixture score list. -/
lemma slope_lit :
    Predict.olsSlope [(1:ℚ)/2, 11/20, 3/5, 13/20, 7/10, 3/4, 4/5, 17/20, 9/10, 19/20]
      = 1/20 := by
  norm_num [Predict.olsSlope, Predict.idxSum, listMean, List.enum, List.enumFrom]

/-- The OLS slope of the fixture scores is 0.05. -/
lemma slope_ys10 : Predict.olsSlope ys10 = 1/20 := by
  unfold ys10
  exact slope_lit

/-- One-step extrapolation of the fixture scores. -/
lemma pred_ys10 : Predict.olsPredict ys10 ((ys10 : List ℚ).length : ℚ) = 1 := by
  norm_num [Predict.olsPredict, Predict.olsIntercept, listMean, ys10, slope_lit]

/-- The fit of the fixture scores is exact, so its confidence is 1. -/
lemma conf_ys10 : Predict.calculate_trend_confidence ys10 = 1 := by
  norm_num [Predict.calculate_trend_confidence, Predict.r2Score, Predict.olsPredict,
    Predict.olsIntercept, Predict.idxSum, listMean, ys10, slope_lit,
    List.enum, List.enumFrom]

/-- Performance factors of the fixture scores. -/
lemma factors_ys10 : Predict.identify_performance_factors ys10 =
    ["context_factors", "high_variability", "low_performance"] := by
  norm_num [Predict.identify_performance_factors, sampleVar, listMean, ys10]

/-- The prediction the code returns on the fixture store. -/
def pStable : Predict.TrendPrediction :=
  ⟨"performance", 19/20, 1, 1, "stable", 30,
   ["context_factors", "high_variability", "low_performance"]⟩

/-- Full evaluation of predict_trends on the fixture store. -/
lemma predict_trends_exps10 : Predict.predict_trends exps10 = [pStable] := by
  unfold Predict.predict_trends Predict.predict_performance_trend
  rw [if_neg (by simp [exps10])]
  dsimp only
  rw [sort_exps10, map_exps10]
  rw [if_neg (by simp [ys10])]
  rw [slope_ys10]
  rw [if_neg (by norm_num), if_neg (by norm_num)]
  simp [Predict.predict_cost_trend, Predict.predict_satisfaction_trend,
    Predict.predict_efficiency_trend, pStable, pred_ys10, conf_ys10, factors_ys10]
  rfl

/-- C9 counterexample: on the fixture store the fitted slope is 0.05,
strictly above the claimed 0.01 tolerance, yet the returned trend
direction is stable, not improving: _predict_performance_trend
classifies against trend_sensitivity = 0.1, not 0.01. -/
theorem c9_counterexample_slope_tolerance :
    Predict.olsSlope ((Predict.sortByTimestamp exps10).map
      (fun e => e.performance_score)) = 1/20 ∧
    ((1:ℚ)/100 < 1/20) ∧
    (Predict.predict_trends exps10).map (fun p => p.trend_direction) = ["stable"] ∧
    ("stable" : String) ≠ "improving" := by
  refine ⟨?_, by norm_num, ?_, by decide⟩
  · rw [sort_exps10, map_exps10]
    exact slope_ys10
  · rw [predict_trends_exps10]
    rfl

/-- C9 amended: with at least 10 stored experiences, the trend
prediction returned by predict_trends classifies the direction of the
fitted least-squares slope against the trend_sensitivity tolerance 0.1:
improving above 0.1, declining below -0.1, stable otherwise. -/
theorem c9_trend_direction_tolerance (exps : List Mem.Experience)
    (h : 10 ≤ exps.length) (p : Predict.TrendPrediction)
    (hp : p ∈ Predict.predict_trends exps) :
    p.trend_direction =
      (if Predict.olsSlope ((Predict.sortByTimestamp exps).map
          (fun e => e.performance_score)) > 1/10 then "improving"
       else if Predict.olsSlope ((Predict.sortByTimestamp exps).map
          (fun e => e.performance_score)) < -(1/10) then "declining"
       else "stable") := by
  unfold Predict.predict_trends Predict.predict_performance_trend at hp
  rw [if_neg (by omega)] at hp
  dsimp only at hp
  rw [if_neg (by rw [List.length_map, sortByTimestamp_length]; omega)] at hp
  simp only [Predict.predict_cost_trend, Predict.predict_satisfaction_trend,
    Predict.predict_efficiency_trend, List.filterMap, Option.some.injEq, id,
    List.mem_singleton] at hp
  subst hp
  rfl

/-- Witness for the amended C9 at the fixture store. -/
theorem c9_witness :
    pStable.trend_direction =
      (if Predict.olsSlope ((Predict.sortByTimestamp exps10).map
          (fun e => e.performance_score)) > 1/10 then "improving"
       else if Predict.olsSlope ((Predict.sortByTimestamp exps10).map
          (fun e => e.performance_score)) < -(1/10) then "declining"
       else "stable") :=
  c9_trend_direction_tolerance exps10 (by simp [exps10]) pStable
    (by rw [predict_trends_exps10]; exact List.Mem.head _)
